import Mathlib

/-
Shallow embedding of the UCDFS/CAN-Testing firmware sketches: the Bamocar
register codec, torque scalers, step-sequenced command state machine and
online-detection wait loop, together with proofs about them.

Modelling conventions:
* CAN_message_t / CAN_FRAME become the `Frame` structure; the 8-byte payload
  buffer is a `List Nat` whose entries are reduced mod 256 at every read
  (`byteAt`), reflecting the `uint8_t` element type.  Helper-built frames
  zero the unused trailing bytes, as `CAN_message_t msg = {0}` does.
* C++ `int16_t` values are `Int`; the `& 0xFF` / `(>> 8) & 0xFF` byte
  extraction of a two's-complement int16 is `int16Lo` / `int16Hi` via
  `% 65536` (Euclidean mod, hence nonnegative).  C++ integer division
  (truncation toward zero) is `Int.tdiv`.
* `float` arithmetic is modelled exactly over `ℚ`; the `(int16_t)` cast of a
  nonnegative float result is `Int.floor` (truncation toward zero).
  Concrete counterexample inputs are chosen where every IEEE float operation
  of the source is exact, so the rational model and the float code agree.
* Serial console output and CSV logging are out of scope; a step handler is
  modelled by the list of bus events it produces: frame transmissions and
  blocking delays (`Event`).
* `delay(ms)` in the enable sequence becomes an explicit `Event.delayMs`.
-/

namespace CANTesting

/-- One CAN bus message: identifier, extended-addressing flag, payload
length, and the fixed 8-byte payload buffer. -/
structure Frame where
  id : Nat
  extended : Bool
  len : Nat
  buf : List Nat
deriving DecidableEq, Repr

/-- A bus-visible action of a step handler: transmitting a frame or a
blocking settle delay of the given number of milliseconds. -/
inductive Event where
  | sendFrame (f : Frame)
  | delayMs (ms : Nat)
deriving DecidableEq, Repr

/-- Read payload byte `i`, reduced mod 256 to reflect `uint8_t` storage. -/
def byteAt (f : Frame) (i : Nat) : Nat :=
  f.buf.getD i 0 % 256

/-- The 16-bit little-endian value `buf[1] | (buf[2] << 8)` as the C++ code
computes it into a plain `int` (always nonnegative). -/
def asUInt16 (lo hi : Nat) : Nat :=
  lo % 256 + 256 * (hi % 256)

/-- The same 16 bits read through a cast to `int16_t`, i.e. sign-extended. -/
def asInt16 (lo hi : Nat) : Int :=
  if (asUInt16 lo hi : Int) < 32768 then (asUInt16 lo hi : Int)
  else (asUInt16 lo hi : Int) - 65536

/-- Low byte of an `int16_t` value, as `torqueValue & 0xFF` yields it. -/
def int16Lo (v : Int) : Nat :=
  (v % 65536).toNat % 256

/-- High byte of an `int16_t` value, as `(torqueValue >> 8) & 0xFF`. -/
def int16Hi (v : Int) : Nat :=
  (v % 65536).toNat / 256 % 256

/-- Commands sent to the drive use this identifier (host to drive). -/
def BAMOCAR_RX_ID : Nat := 0x201

/-- Telemetry received from the drive uses this identifier. -/
def BAMOCAR_TX_ID : Nat := 0x181

/-- The semantic result of interpreting one frame against the register
table (the tagged meaning behind each `sprintf` branch of
`interpretBamocarMessage`). -/
inductive Reading where
  | requestRegister (target : Nat)
  | clearAllErrors
  | lockDisableDrive
  | enableDriveCmd
  | driveControl (flag : Nat)
  | setTorque (tq : Int)
  | setCanTimeout (ms : Nat)
  | commandSent (reg : Nat)
  | speedFeedback (rpm : Int)
  | statusWord (status : Nat)
  | dcBusVoltage (volts : ℚ)
  | actualCurrent (amps : ℚ)
  | torqueFeedbackPct (pct : ℚ)
  | replyRegister (reg : Nat)
  | otherTraffic
deriving DecidableEq, Repr

/-- Decision used by the C10 invariant: a well-formed outbound command frame
has identifier 0x201, standard (non-extended) addressing, payload length 3
and the register id in payload byte 0. -/
def isCmdFrame (f : Frame) (reg : Nat) : Bool :=
  (f.id == 0x201) && (f.extended == false) && (f.len == 3) && (byteAt f 0 == reg)

/-- Filter for transmissions of register-0x51 frames in an event trace. -/
def isSend51 (e : Event) : Bool :=
  match e with
  | .sendFrame f => byteAt f 0 == 0x51
  | .delayMs _ => false

/-- Filter for transmissions of Lock frames (register 0x51, byte1 = 0x04). -/
def isLockSend (e : Event) : Bool :=
  match e with
  | .sendFrame f => byteAt f 0 == 0x51 && byteAt f 1 == 0x04
  | .delayMs _ => false

/-- Filter for delay events in an event trace. -/
def isDelayEvent (e : Event) : Bool :=
  match e with
  | .sendFrame _ => false
  | .delayMs _ => true

namespace Teensy

/- Embedding of src/TEENSY_COMMAND_MOTOR/src/main.cpp. -/

def MAX_ACCEL_PERCENT : Nat := 50

def TORQUE_MAX : Int := 32767

def requestStatusCyclic (interval_ms : Nat) : Frame :=
  { id := BAMOCAR_RX_ID, extended := false, len := 3,
    buf := [0x3D, 0x40, interval_ms % 256, 0, 0, 0, 0, 0] }

def requestStatusOnce : Frame :=
  { id := BAMOCAR_RX_ID, extended := false, len := 3,
    buf := [0x3D, 0x40, 0x00, 0, 0, 0, 0, 0] }

def requestSpeedCyclic (interval_ms : Nat) : Frame :=
  { id := BAMOCAR_RX_ID, extended := false, len := 3,
    buf := [0x3D, 0x30, interval_ms % 256, 0, 0, 0, 0, 0] }

def requestDCBusOnce : Frame :=
  { id := BAMOCAR_RX_ID, extended := false, len := 3,
    buf := [0x3D, 0xEB, 0x00, 0, 0, 0, 0, 0] }

def clearErrors : Frame :=
  { id := BAMOCAR_RX_ID, extended := false, len := 3,
    buf := [0x8E, 0x00, 0x00, 0, 0, 0, 0, 0] }

/-- Embeds `configureCanTimeout(uint16_t ms)`: byte1 = `ms & 0xFF`,
byte2 = `(ms >> 8) & 0xFF`; the argument is a `uint16_t`, hence `% 65536`. -/
def configureCanTimeout (ms : Nat) : Frame :=
  { id := BAMOCAR_RX_ID, extended := false, len := 3,
    buf := [0xD0, ms % 65536 % 256, ms % 65536 / 256, 0, 0, 0, 0, 0] }

def sendTorqueCommand (torqueValue : Int) : Frame :=
  { id := BAMOCAR_RX_ID, extended := false, len := 3,
    buf := [0x90, int16Lo torqueValue, int16Hi torqueValue, 0, 0, 0, 0, 0] }

/-- Embeds `enableDrive()`: send Lock (0x51 0x04 0x00), `delay(100)`, then
send Enable (0x51 0x00 0x00) by rewriting byte1 of the same message. -/
def enableDrive : List Event :=
  [Event.sendFrame { id := BAMOCAR_RX_ID, extended := false, len := 3,
                     buf := [0x51, 0x04, 0x00, 0, 0, 0, 0, 0] },
   Event.delayMs 100,
   Event.sendFrame { id := BAMOCAR_RX_ID, extended := false, len := 3,
                     buf := [0x51, 0x00, 0x00, 0, 0, 0, 0, 0] }]

def disableDrive : Frame :=
  { id := BAMOCAR_RX_ID, extended := false, len := 3,
    buf := [0x51, 0x04, 0x00, 0, 0, 0, 0, 0] }

/-- Embeds `executeStep`, as the list of bus events each step produces
(serial prints and SD logging are out of scope).  In this variant the call
`disableDrive()` inside case 8 is commented out in the source, so case 8
produces no bus traffic; case 9 only dumps the log. -/
def executeStep (step : Nat) : List Event :=
  if step = 1 then
    [Event.sendFrame (requestStatusCyclic 100), Event.sendFrame (requestSpeedCyclic 100)]
  else if step = 2 then [Event.sendFrame requestDCBusOnce]
  else if step = 3 then [Event.sendFrame clearErrors]
  else if step = 4 then [Event.sendFrame (configureCanTimeout 2000)]
  else if step = 5 then
    [Event.sendFrame clearErrors, Event.delayMs 100] ++ enableDrive ++
      [Event.sendFrame requestStatusOnce]
  else if step = 6 then [Event.sendFrame (sendTorqueCommand 0)]
  else if step = 7 then []
  else if step = 8 then []
  else if step = 9 then []
  else []

/-- The step numbers `setup()` passes to `executeStep`: step 1 before the
online wait, then steps 2 through 7.  `loop()` never calls `executeStep`,
so no other step is ever reached in this variant. -/
def setupSteps : List Nat := [1, 2, 3, 4, 5, 6, 7]

/-- Embeds the receive filter of `readCanMessages`: a frame marks the drive
online exactly when it carries the telemetry identifier, has payload length
at least 3, and its register byte is 0x40 (STATUS). -/
def statusDetect (msg : Frame) : Bool :=
  (msg.id == BAMOCAR_TX_ID) && decide (3 ≤ msg.len) && (byteAt msg 0 == 0x40)

/-- Embeds the register interpretation of this variant.  Note the 0x90,
0xD0, 0x30 and 0x40 branches all read `msg.buf[1] | (msg.buf[2] << 8)` into
a plain `int`, without a cast to `int16_t`: the value is always taken
unsigned here. -/
def interpretBamocarMessage (msg : Frame) : Reading :=
  let reg := byteAt msg 0
  let b1 := byteAt msg 1
  let b2 := byteAt msg 2
  if msg.id = BAMOCAR_RX_ID then
    if reg = 0x3D then .requestRegister b1
    else if reg = 0x8E then .clearAllErrors
    else if reg = 0x51 then
      if b1 = 0x04 then .lockDisableDrive
      else if b1 = 0x00 then .enableDriveCmd
      else .driveControl b1
    else if reg = 0x90 then .setTorque (asUInt16 b1 b2 : Int)
    else if reg = 0xD0 then .setCanTimeout (asUInt16 b1 b2)
    else .commandSent reg
  else if msg.id = BAMOCAR_TX_ID then
    if reg = 0x30 then .speedFeedback (asUInt16 b1 b2 : Int)
    else if reg = 0x40 then .statusWord (asUInt16 b1 b2)
    else if reg = 0xEB then .dcBusVoltage ((asUInt16 b1 b2 : ℚ) / 10)
    else .replyRegister reg
  else .otherTraffic

/-- Embeds the online-detection wait loop of `setup()` (the `awaitOnline`
contract): iteration `i` runs when the drive is still offline and
`i * pollIntervalMs < maxWaitMs`; it sends one STATUS probe, polls the batch
of inbound frames delivered during that interval, and delays
`pollIntervalMs`.  Timing is idealised: `delay(pollIntervalMs)` dominates an
iteration, so elapsed time at iteration `i` is `i * pollIntervalMs`.  The
result pairs the final online flag with the number of probes issued.  The
`fuel` argument only bounds the recursion; it is chosen large enough that
the time bound, not the fuel, terminates the loop. -/
def awaitOnlineGo (inbound : Nat → List Frame) (pollIntervalMs maxWaitMs : Nat) :
    Nat → Nat → Bool × Nat
  | i, 0 => (false, i)
  | i, fuel + 1 =>
    if i * pollIntervalMs < maxWaitMs then
      if (inbound i).any statusDetect then (true, i + 1)
      else awaitOnlineGo inbound pollIntervalMs maxWaitMs (i + 1) fuel
    else (false, i)

/-- The wait loop entered with elapsed time 0. -/
def awaitOnline (maxWaitMs pollIntervalMs : Nat) (inbound : Nat → List Frame) :
    Bool × Nat :=
  awaitOnlineGo inbound pollIntervalMs maxWaitMs 0 maxWaitMs

end Teensy

namespace Part000

/- Embedding of the interactive Arduino Due sketch (second source file of
src/unnamed/part_000): serial-triggered steps 1 to 6 on a `uint8_t` step
counter. -/

def SPEED_REQUEST_INTERVAL_MS : Nat := 100

def requestStatusOnce : Frame :=
  { id := BAMOCAR_RX_ID, extended := false, len := 3,
    buf := [0x3D, 0x40, 0x00, 0, 0, 0, 0, 0] }

def requestSpeedCyclic (intervalMs : Nat) : Frame :=
  { id := BAMOCAR_RX_ID, extended := false, len := 3,
    buf := [0x3D, 0x30, intervalMs % 256, 0, 0, 0, 0, 0] }

/-- Embeds `enableDrive()` of this variant: it sends the single Enable
frame 0x51 0x00 0x00 — no preceding Lock frame and no settle delay. -/
def enableDrive : Frame :=
  { id := BAMOCAR_RX_ID, extended := false, len := 3,
    buf := [0x51, 0x00, 0x00, 0, 0, 0, 0, 0] }

def disableDrive : Frame :=
  { id := BAMOCAR_RX_ID, extended := false, len := 3,
    buf := [0x51, 0x04, 0x00, 0, 0, 0, 0, 0] }

def sendTorqueCommand (torqueValue : Int) : Frame :=
  { id := BAMOCAR_RX_ID, extended := false, len := 3,
    buf := [0x90, int16Lo torqueValue, int16Hi torqueValue, 0, 0, 0, 0, 0] }

/-- Embeds `executeStep` of this variant: step 4 only prints and resets the
torque-send timestamp; the default branch prints the sequence-complete
message and produces no bus traffic. -/
def executeStep (step : Nat) : List Event :=
  if step = 1 then [Event.sendFrame requestStatusOnce]
  else if step = 2 then [Event.sendFrame (requestSpeedCyclic SPEED_REQUEST_INTERVAL_MS)]
  else if step = 3 then [Event.sendFrame enableDrive]
  else if step = 4 then []
  else if step = 5 then [Event.sendFrame (sendTorqueCommand 0)]
  else if step = 6 then [Event.sendFrame disableDrive]
  else []

/-- The step counter is a `uint8_t` incremented once per serial trigger
(`currentStep++`), so after `triggers` triggers from the initial value 0 it
holds `triggers % 256`. -/
def stepAfter (triggers : Nat) : Nat := triggers % 256

end Part000

namespace Part002

/- Embedding of the Teensy bring-up-plus-logger sketch
(src/unnamed/part_002): serial-triggered steps 1 to 9 on an `int` step
counter, full register interpretation with signed casts. -/

def MAX_ACCEL_PERCENT : Nat := 50

def TORQUE_MAX : Int := 32767

def requestStatusCyclic (interval_ms : Nat) : Frame :=
  { id := BAMOCAR_RX_ID, extended := false, len := 3,
    buf := [0x3D, 0x40, interval_ms % 256, 0, 0, 0, 0, 0] }

def requestStatusOnce : Frame :=
  { id := BAMOCAR_RX_ID, extended := false, len := 3,
    buf := [0x3D, 0x40, 0x00, 0, 0, 0, 0, 0] }

def requestSpeedCyclic (interval_ms : Nat) : Frame :=
  { id := BAMOCAR_RX_ID, extended := false, len := 3,
    buf := [0x3D, 0x30, interval_ms % 256, 0, 0, 0, 0, 0] }

def requestDCBusOnce : Frame :=
  { id := BAMOCAR_RX_ID, extended := false, len := 3,
    buf := [0x3D, 0xEB, 0x00, 0, 0, 0, 0, 0] }

def clearErrors : Frame :=
  { id := BAMOCAR_RX_ID, extended := false, len := 3,
    buf := [0x8E, 0x00, 0x00, 0, 0, 0, 0, 0] }

def configureCanTimeout (ms : Nat) : Frame :=
  { id := BAMOCAR_RX_ID, extended := false, len := 3,
    buf := [0xD0, ms % 65536 % 256, ms % 65536 / 256, 0, 0, 0, 0, 0] }

def sendTorqueCommand (torqueValue : Int) : Frame :=
  { id := BAMOCAR_RX_ID, extended := false, len := 3,
    buf := [0x90, int16Lo torqueValue, int16Hi torqueValue, 0, 0, 0, 0, 0] }

/-- Embeds `enableDrive()`: Lock, `delay(100)`, Enable. -/
def enableDrive : List Event :=
  [Event.sendFrame { id := BAMOCAR_RX_ID, extended := false, len := 3,
                     buf := [0x51, 0x04, 0x00, 0, 0, 0, 0, 0] },
   Event.delayMs 100,
   Event.sendFrame { id := BAMOCAR_RX_ID, extended := false, len := 3,
                     buf := [0x51, 0x00, 0x00, 0, 0, 0, 0, 0] }]

def disableDrive : Frame :=
  { id := BAMOCAR_RX_ID, extended := false, len := 3,
    buf := [0x51, 0x04, 0x00, 0, 0, 0, 0, 0] }

/-- Embeds `executeStep` of this variant: cases 1 through 9, with the
default branch printing the all-steps-complete message only. -/
def executeStep (step : Nat) : List Event :=
  if step = 1 then
    [Event.sendFrame (requestStatusCyclic 100), Event.sendFrame (requestSpeedCyclic 100)]
  else if step = 2 then [Event.sendFrame requestDCBusOnce]
  else if step = 3 then [Event.sendFrame clearErrors]
  else if step = 4 then [Event.sendFrame (configureCanTimeout 2000)]
  else if step = 5 then
    [Event.sendFrame clearErrors, Event.delayMs 100] ++ enableDrive ++
      [Event.sendFrame requestStatusOnce]
  else if step = 6 then [Event.sendFrame (sendTorqueCommand 0)]
  else if step = 7 then []
  else if step = 8 then [Event.sendFrame disableDrive]
  else if step = 9 then []
  else []

/-- Embeds `interpretBamocarMessage` of this variant.  This decoder assigns
the 16-bit payload through `int16_t` for torque, speed, current and torque
feedback (sign-extending), and through `uint16_t` for status and DC bus
voltage.  Float scalings (`* 0.1f`, `/ 327.67f`) are modelled exactly over
the rationals.  There is no payload-length check: bytes 1 and 2 are read
regardless of `msg.len`, exactly as in the source. -/
def interpretBamocarMessage (msg : Frame) : Reading :=
  let reg := byteAt msg 0
  let b1 := byteAt msg 1
  let b2 := byteAt msg 2
  if msg.id = BAMOCAR_RX_ID then
    if reg = 0x3D then .requestRegister b1
    else if reg = 0x8E then .clearAllErrors
    else if reg = 0x51 then
      if b1 = 0x04 then .lockDisableDrive
      else if b1 = 0x00 then .enableDriveCmd
      else .driveControl b1
    else if reg = 0x90 then .setTorque (asInt16 b1 b2)
    else if reg = 0xD0 then .setCanTimeout (asUInt16 b1 b2)
    else .commandSent reg
  else if msg.id = BAMOCAR_TX_ID then
    if reg = 0x30 then .speedFeedback (asInt16 b1 b2)
    else if reg = 0x40 then .statusWord (asUInt16 b1 b2)
    else if reg = 0xEB then .dcBusVoltage ((asUInt16 b1 b2 : ℚ) / 10)
    else if reg = 0x5F then .actualCurrent ((asInt16 b1 b2 : ℚ) / 10)
    else if reg = 0xA0 then .torqueFeedbackPct ((asInt16 b1 b2 : ℚ) * 100 / 32767)
    else .replyRegister reg
  else .otherTraffic

/-- Embeds `updateTorqueFromPot`: `potPercent = potValue / 4095.0f * 50`,
`currentTorque = (int16_t)(32767 * (potPercent / 100.0f))`.  The float
arithmetic is modelled exactly over `ℚ`; the `(int16_t)` cast truncates
toward zero, which on this nonnegative value is `Int.floor`.  No clamping
is applied anywhere in this variant's source. -/
def updateTorqueFromPot (potValue : Nat) : Int :=
  let potPercent : ℚ := (potValue : ℚ) / 4095 * (MAX_ACCEL_PERCENT : ℚ)
  Int.floor ((TORQUE_MAX : ℚ) * (potPercent / 100))

end Part002

namespace DueSendTorque

/- Embedding of src/DUE_SEND_TORQUE/src/main.cpp: the bidirectional
centred torque scaler and the fixed lock/enable/torque frames. -/

def MAX_ACCEL_POS : Nat := 50

def TORQUE_FULL_SCALE : Int := 32767

/-- Embeds `(int32_t)MAX_ACCEL_POS * TORQUE_FULL_SCALE / 100` with C++
truncating division. -/
def MAX_TORQUE_COMMAND : Int :=
  Int.tdiv ((MAX_ACCEL_POS : Int) * TORQUE_FULL_SCALE) 100

def ANALOG_CENTER : Int := 512

def ANALOG_DEADZONE : Nat := 8

/-- Embeds the scaling logic of `sendTorqueFrame`: subtract the centre,
zero the deadzone, scale by `MAX_TORQUE_COMMAND / ANALOG_CENTER` with
truncating `int32_t` division, and clamp to
`[-MAX_TORQUE_COMMAND, MAX_TORQUE_COMMAND]`.  The final `(int16_t)` cast is
the identity on the clamped range and is omitted.  The multiplication
cannot overflow `int32_t` for any `uint16_t`-sized raw reading. -/
def scaledCommand (rawPot : Int) : Int :=
  let centered := rawPot - ANALOG_CENTER
  let centered := if centered.natAbs ≤ ANALOG_DEADZONE then 0 else centered
  let scaled := Int.tdiv (centered * MAX_TORQUE_COMMAND) ANALOG_CENTER
  if scaled > MAX_TORQUE_COMMAND then MAX_TORQUE_COMMAND
  else if scaled < -MAX_TORQUE_COMMAND then -MAX_TORQUE_COMMAND
  else scaled

/-- The torque frame transmitted by `sendTorqueFrame` after writing the
scaled command into bytes 1 and 2 (little-endian). -/
def sendTorqueFrame (rawPot : Int) : Frame :=
  { id := 0x201, extended := false, len := 3,
    buf := [0x90, int16Lo (scaledCommand rawPot), int16Hi (scaledCommand rawPot),
            0, 0, 0, 0, 0] }

/-- The lock frame configured in `setup()`. -/
def lockFrame : Frame :=
  { id := 0x201, extended := false, len := 3,
    buf := [0x51, 0x04, 0x00, 0, 0, 0, 0, 0] }

/-- The enable frame configured in `setup()`. -/
def enableFrame : Frame :=
  { id := 0x201, extended := false, len := 3,
    buf := [0x51, 0x00, 0x00, 0, 0, 0, 0, 0] }

end DueSendTorque


theorem asUInt16_mod (a b : Nat) : asUInt16 (a % 256) (b % 256) = asUInt16 a b := by
  simp only [asUInt16]
  omega

theorem asInt16_mod (a b : Nat) : asInt16 (a % 256) (b % 256) = asInt16 a b := by
  simp only [asInt16, asUInt16_mod]

theorem asInt16_bytes (v : Int) (h1 : -32768 ≤ v) (h2 : v < 32768) :
    asInt16 (int16Lo v) (int16Hi v) = v := by
  simp only [asInt16, asUInt16, int16Lo, int16Hi]
  have h3 : 0 ≤ v % 65536 := by omega
  have h4 : v % 65536 < 65536 := by omega
  split_ifs <;> omega

/-- Claim C1 (counterexample): in the part_000 interactive variant, the
enable-drive step (step 3) emits exactly one register-0x51 frame, the
Enable frame with byte1 = 0x00; it emits no Lock frame and no delay, so
the step does not emit two 0x51 frames with a Lock first. -/
theorem C1_counterexample :
    (Part000.executeStep 3).filter isSend51 = [Event.sendFrame Part000.enableDrive] ∧
    byteAt Part000.enableDrive 1 = 0x00 ∧
    (Part000.executeStep 3).filter isLockSend = [] ∧
    (Part000.executeStep 3).filter isDelayEvent = [] := by
  decide

/-- Claim C1 (amended): in the TEENSY_COMMAND_MOTOR and part_002 variants,
the enable-drive step emits exactly two register-0x51 frames — Lock
(byte1 = 0x04) strictly before Enable (byte1 = 0x00) — separated by a
100 ms settle delay; in the part_000 interactive variant the enable step
emits the single Enable frame 0x51 0x00 0x00 with no Lock and no delay. -/
theorem C1_enable_ordering :
    Teensy.enableDrive =
      [Event.sendFrame { id := BAMOCAR_RX_ID, extended := false, len := 3,
                         buf := [0x51, 0x04, 0x00, 0, 0, 0, 0, 0] },
       Event.delayMs 100,
       Event.sendFrame { id := BAMOCAR_RX_ID, extended := false, len := 3,
                         buf := [0x51, 0x00, 0x00, 0, 0, 0, 0, 0] }] ∧
    Part002.enableDrive = Teensy.enableDrive ∧
    Part000.executeStep 3 = [Event.sendFrame Part000.enableDrive] ∧
    byteAt Part000.enableDrive 0 = 0x51 ∧
    byteAt Part000.enableDrive 1 = 0x00 := by
  decide

/-- Claim C5: the disable-drive step emits exactly one frame, register
0x51 with flag byte 0x04 (Lock), in every variant that reaches it: step 6
of part_000 and step 8 of part_002.  The TEENSY_COMMAND_MOTOR variant
never reaches its step 8: `setup()` executes steps 1 through 7 only and
`loop()` advances no step. -/
theorem C5_disable_single_lock :
    Part000.executeStep 6 = [Event.sendFrame Part000.disableDrive] ∧
    byteAt Part000.disableDrive 0 = 0x51 ∧
    byteAt Part000.disableDrive 1 = 0x04 ∧
    Part002.executeStep 8 = [Event.sendFrame Part002.disableDrive] ∧
    byteAt Part002.disableDrive 0 = 0x51 ∧
    byteAt Part002.disableDrive 1 = 0x04 ∧
    8 ∉ Teensy.setupSteps := by
  decide

/-- Claim C6 (counterexample): in part_000 the step counter is a `uint8_t`,
so it wraps modulo 256: after 257 serial triggers from Idle the counter is
back at step 1 and that trigger emits the STATUS-request frame again — the
sequence is not terminal and does wrap. -/
theorem C6_counterexample :
    Part000.stepAfter 257 = 1 ∧
    Part000.executeStep (Part000.stepAfter 257) =
      [Event.sendFrame Part000.requestStatusOnce] := by
  decide

/-- Claim C6 (amended): triggers past the last defined step emit no frames
(the handler only reports completion) — in part_000 for every trigger count
from 7 up to 255, and in part_002 (whose counter is an `int`) for every
trigger past step 9; but part_000's `uint8_t` counter wraps modulo 256, so
trigger 257 lands on step 1 again. -/
theorem C6_terminal_steps :
    (∀ n : Nat, 7 ≤ n → n ≤ 255 → Part000.executeStep (Part000.stepAfter n) = []) ∧
    (∀ n : Nat, 10 ≤ n → Part002.executeStep n = []) ∧
    Part000.stepAfter 257 = 1 := by
  refine ⟨?_, ?_, rfl⟩
  · intro n h1 h2
    have hs : Part000.stepAfter n = n := Nat.mod_eq_of_lt (by omega)
    rw [hs]
    simp only [Part000.executeStep]
    split_ifs <;> first | rfl | omega
  · intro n h1
    simp only [Part002.executeStep]
    split_ifs <;> first | rfl | omega

/-- Claim C6 witness: concrete instances of the amended terminal behaviour. -/
theorem C6_terminal_steps_witness :
    Part000.executeStep (Part000.stepAfter 7) = [] ∧ Part002.executeStep 10 = [] :=
  ⟨C6_terminal_steps.1 7 (by decide) (by decide), C6_terminal_steps.2.1 10 (by decide)⟩

/-- Claim C9: whenever the raw reading is within the deadzone around the
analog centre (|raw - 512| ≤ 8), the bidirectional scaler outputs exactly
0. -/
theorem C9_deadzone_zero :
    ∀ rawPot : Int, (rawPot - DueSendTorque.ANALOG_CENTER).natAbs ≤ DueSendTorque.ANALOG_DEADZONE →
      DueSendTorque.scaledCommand rawPot = 0 := by
  intro rawPot h
  simp only [DueSendTorque.scaledCommand]
  rw [if_pos h]
  decide

/-- Claim C9 witness: raw reading 515 is inside the deadzone and scales to 0. -/
theorem C9_deadzone_zero_witness :
    ((515 : Int) - DueSendTorque.ANALOG_CENTER).natAbs ≤ DueSendTorque.ANALOG_DEADZONE ∧
    DueSendTorque.scaledCommand 515 = 0 :=
  ⟨by decide, C9_deadzone_zero 515 (by decide)⟩

/-- Claim C10: every outbound command frame built by the send helpers of
all four variants carries identifier 0x201, standard (non-extended)
addressing, payload length exactly 3, and its register id in payload
byte 0 — for every argument value. -/
theorem C10_command_frame_invariant :
    ∀ (interval ms : Nat) (v rawPot : Int),
      isCmdFrame (Teensy.requestStatusCyclic interval) 0x3D = true ∧
      isCmdFrame Teensy.requestStatusOnce 0x3D = true ∧
      isCmdFrame (Teensy.requestSpeedCyclic interval) 0x3D = true ∧
      isCmdFrame Teensy.requestDCBusOnce 0x3D = true ∧
      isCmdFrame Teensy.clearErrors 0x8E = true ∧
      isCmdFrame (Teensy.configureCanTimeout ms) 0xD0 = true ∧
      isCmdFrame (Teensy.sendTorqueCommand v) 0x90 = true ∧
      isCmdFrame Teensy.disableDrive 0x51 = true ∧
      (Teensy.enableDrive.all fun e =>
        match e with
        | Event.sendFrame f => isCmdFrame f 0x51
        | Event.delayMs _ => true) = true ∧
      isCmdFrame Part000.requestStatusOnce 0x3D = true ∧
      isCmdFrame (Part000.requestSpeedCyclic interval) 0x3D = true ∧
      isCmdFrame Part000.enableDrive 0x51 = true ∧
      isCmdFrame Part000.disableDrive 0x51 = true ∧
      isCmdFrame (Part000.sendTorqueCommand v) 0x90 = true ∧
      isCmdFrame (Part002.requestStatusCyclic interval) 0x3D = true ∧
      isCmdFrame Part002.requestStatusOnce 0x3D = true ∧
      isCmdFrame (Part002.requestSpeedCyclic interval) 0x3D = true ∧
      isCmdFrame Part002.requestDCBusOnce 0x3D = true ∧
      isCmdFrame Part002.clearErrors 0x8E = true ∧
      isCmdFrame (Part002.configureCanTimeout ms) 0xD0 = true ∧
      isCmdFrame (Part002.sendTorqueCommand v) 0x90 = true ∧
      isCmdFrame Part002.disableDrive 0x51 = true ∧
      (Part002.enableDrive.all fun e =>
        match e with
        | Event.sendFrame f => isCmdFrame f 0x51
        | Event.delayMs _ => true) = true ∧
      isCmdFrame (DueSendTorque.sendTorqueFrame rawPot) 0x90 = true ∧
      isCmdFrame DueSendTorque.lockFrame 0x51 = true ∧
      isCmdFrame DueSendTorque.enableFrame 0x51 = true := by
  intro interval ms v rawPot
  exact ⟨rfl, rfl, rfl, rfl, rfl, rfl, rfl, rfl, rfl, rfl, rfl, rfl, rfl, rfl, rfl,
         rfl, rfl, rfl, rfl, rfl, rfl, rfl, rfl, rfl, rfl, rfl⟩

theorem asUInt16_uint16 (ms : Nat) (h : ms < 65536) :
    asUInt16 (ms % 65536 % 256) (ms % 65536 / 256) = ms := by
  simp only [asUInt16]
  omega

theorem asUInt16_int_bytes (v : Int) (h1 : 0 ≤ v) (h2 : v < 32768) :
    (asUInt16 (int16Lo v) (int16Hi v) : Int) = v := by
  simp only [asUInt16, int16Lo, int16Hi]
  have h3 : 0 ≤ v % 65536 := by omega
  have h4 : v % 65536 < 65536 := by omega
  push_cast
  omega

theorem interp002_rx90 (b1 b2 : Nat) :
    Part002.interpretBamocarMessage
      { id := BAMOCAR_RX_ID, extended := false, len := 3,
        buf := [0x90, b1, b2, 0, 0, 0, 0, 0] } =
      Reading.setTorque (asInt16 b1 b2) := by
  simp only [Part002.interpretBamocarMessage, byteAt, BAMOCAR_RX_ID, BAMOCAR_TX_ID]
  norm_num [asInt16_mod]

theorem interp002_rxD0 (b1 b2 : Nat) :
    Part002.interpretBamocarMessage
      { id := BAMOCAR_RX_ID, extended := false, len := 3,
        buf := [0xD0, b1, b2, 0, 0, 0, 0, 0] } =
      Reading.setCanTimeout (asUInt16 b1 b2) := by
  simp only [Part002.interpretBamocarMessage, byteAt, BAMOCAR_RX_ID, BAMOCAR_TX_ID]
  norm_num [asUInt16_mod]

theorem interpTeensy_rx90 (b1 b2 : Nat) :
    Teensy.interpretBamocarMessage
      { id := BAMOCAR_RX_ID, extended := false, len := 3,
        buf := [0x90, b1, b2, 0, 0, 0, 0, 0] } =
      Reading.setTorque (asUInt16 b1 b2 : Int) := by
  simp only [Teensy.interpretBamocarMessage, byteAt, BAMOCAR_RX_ID, BAMOCAR_TX_ID]
  norm_num [asUInt16_mod]

theorem interp002_txEB (lo hi : Nat) :
    Part002.interpretBamocarMessage
      { id := BAMOCAR_TX_ID, extended := false, len := 3,
        buf := [0xEB, lo, hi, 0, 0, 0, 0, 0] } =
      Reading.dcBusVoltage ((asUInt16 lo hi : ℚ) / 10) := by
  simp only [Part002.interpretBamocarMessage, byteAt, BAMOCAR_RX_ID, BAMOCAR_TX_ID]
  norm_num [asUInt16_mod]

theorem interp002_tx5F (lo hi : Nat) :
    Part002.interpretBamocarMessage
      { id := BAMOCAR_TX_ID, extended := false, len := 3,
        buf := [0x5F, lo, hi, 0, 0, 0, 0, 0] } =
      Reading.actualCurrent ((asInt16 lo hi : ℚ) / 10) := by
  simp only [Part002.interpretBamocarMessage, byteAt, BAMOCAR_RX_ID, BAMOCAR_TX_ID]
  norm_num [asInt16_mod]

/-- Claim C2 (counterexample): the part_002 unidirectional scaler applies
no clamp, so the out-of-range raw reading 8190 (every float operation of
the source is exact at this input: 8190 / 4095 = 2, so potPercent = 100 and
the command is 32767 * 1.0) produces 32767, which exceeds
maxTorque = 50 percent of full scale = 16383. -/
theorem C2_counterexample :
    Part002.updateTorqueFromPot 8190 = 32767 ∧
    ¬(Part002.updateTorqueFromPot 8190 ≤ 16383) := by
  have h : Part002.updateTorqueFromPot 8190 = 32767 := by
    simp only [Part002.updateTorqueFromPot, Part002.MAX_ACCEL_PERCENT, Part002.TORQUE_MAX]
    norm_num
  exact ⟨h, by rw [h]; decide⟩

theorem updateTorqueFromPot_bounds (p : Nat) (hp : p ≤ 4095) :
    0 ≤ Part002.updateTorqueFromPot p ∧ Part002.updateTorqueFromPot p ≤ 16383 := by
  have hq0 : (0 : ℚ) ≤
      (Part002.TORQUE_MAX : ℚ) * ((p : ℚ) / 4095 * (Part002.MAX_ACCEL_PERCENT : ℚ) / 100) := by
    simp only [Part002.TORQUE_MAX, Part002.MAX_ACCEL_PERCENT]
    positivity
  have hq : (Part002.TORQUE_MAX : ℚ) * ((p : ℚ) / 4095 * (Part002.MAX_ACCEL_PERCENT : ℚ) / 100) <
      ((16384 : ℤ) : ℚ) := by
    simp only [Part002.TORQUE_MAX, Part002.MAX_ACCEL_PERCENT]
    have hc : ((p : ℚ)) ≤ 4095 := by exact_mod_cast hp
    have heq : ((32767 : Int) : ℚ) * ((p : ℚ) / 4095 * ((50 : Nat) : ℚ) / 100) =
        32767 * (p : ℚ) / 8190 := by
      push_cast
      ring
    rw [heq, div_lt_iff₀ (by norm_num : (0 : ℚ) < 8190)]
    push_cast
    nlinarith
  constructor
  · exact Int.floor_nonneg.mpr hq0
  · have h2 : Part002.updateTorqueFromPot p < 16384 := Int.floor_lt.mpr hq
    omega

/-- Claim C2 (amended): maxTorque is 16383 (50 percent of full scale
32767, with truncating integer division); the bidirectional scaler of
DUE_SEND_TORQUE clamps its result into [-16383, 16383] for every raw
input, with no error path; the part_002 unidirectional scaler is also
total but applies no clamp, so its result lies in [0, 16383] only for raw
inputs within the 12-bit ADC range 0..4095 — out-of-range raw values can
exceed maxTorque. -/
theorem C2_torque_clamping :
    DueSendTorque.MAX_TORQUE_COMMAND = 16383 ∧
    (∀ rawPot : Int,
      -16383 ≤ DueSendTorque.scaledCommand rawPot ∧
        DueSendTorque.scaledCommand rawPot ≤ 16383) ∧
    (∀ potValue : Nat, potValue ≤ 4095 →
      0 ≤ Part002.updateTorqueFromPot potValue ∧
        Part002.updateTorqueFromPot potValue ≤ 16383) := by
  refine ⟨by decide, ?_, fun p hp => updateTorqueFromPot_bounds p hp⟩
  intro rawPot
  simp only [DueSendTorque.scaledCommand]
  rw [(by decide : DueSendTorque.MAX_TORQUE_COMMAND = 16383)]
  split_ifs <;> omega

/-- Claim C2 witness: concrete in-range instances of the amended bounds. -/
theorem C2_torque_clamping_witness :
    (-16383 ≤ DueSendTorque.scaledCommand 1023 ∧ DueSendTorque.scaledCommand 1023 ≤ 16383) ∧
    (0 ≤ Part002.updateTorqueFromPot 4095 ∧ Part002.updateTorqueFromPot 4095 ≤ 16383) :=
  ⟨C2_torque_clamping.2.1 1023, C2_torque_clamping.2.2 4095 (by decide)⟩

/-- Claim C3 (counterexample): the TEENSY_COMMAND_MOTOR decoder reads the
torque payload as a plain unsigned int (no int16_t cast), so decoding the
frame produced by encoding -16384 yields 49152, not -16384: the round-trip
fails for negative values in that variant. -/
theorem C3_counterexample :
    Teensy.interpretBamocarMessage (Teensy.sendTorqueCommand (-16384)) =
      Reading.setTorque 49152 ∧
    Reading.setTorque 49152 ≠ Reading.setTorque (-16384 : Int) := by
  exact ⟨by decide, by decide⟩

/-- Claim C3 (amended): encode is little-endian (payload byte1 = low byte,
byte2 = high byte) and encode(0x90, -16384) produces payload
[0x90, 0x00, 0xC0]; the part_002 decoder casts the payload through int16_t
and round-trips every value in [-32768, 32767] on register 0x90 and every
timeout in [0, 65535] on register 0xD0; the TEENSY_COMMAND_MOTOR decoder
reads the payload unsigned, so it round-trips only values in [0, 32767]. -/
theorem C3_roundtrip_littleendian :
    (∀ v : Int, -32768 ≤ v → v < 32768 →
      Part002.interpretBamocarMessage (Part002.sendTorqueCommand v) =
        Reading.setTorque v) ∧
    (∀ ms : Nat, ms < 65536 →
      Part002.interpretBamocarMessage (Part002.configureCanTimeout ms) =
        Reading.setCanTimeout ms) ∧
    (∀ v : Int, 0 ≤ v → v < 32768 →
      Teensy.interpretBamocarMessage (Teensy.sendTorqueCommand v) =
        Reading.setTorque v) ∧
    Part002.sendTorqueCommand (-16384) =
      { id := BAMOCAR_RX_ID, extended := false, len := 3,
        buf := [0x90, 0x00, 0xC0, 0, 0, 0, 0, 0] } ∧
    Part002.interpretBamocarMessage
      { id := BAMOCAR_RX_ID, extended := false, len := 3,
        buf := [0x90, 0x00, 0xC0, 0, 0, 0, 0, 0] } =
      Reading.setTorque (-16384) := by
  refine ⟨?_, ?_, ?_, by decide, by decide⟩
  · intro v h1 h2
    exact (interp002_rx90 (int16Lo v) (int16Hi v)).trans (by rw [asInt16_bytes v h1 h2])
  · intro ms h
    exact (interp002_rxD0 (ms % 65536 % 256) (ms % 65536 / 256)).trans
      (by rw [asUInt16_uint16 ms h])
  · intro v h1 h2
    exact (interpTeensy_rx90 (int16Lo v) (int16Hi v)).trans
      (by rw [asUInt16_int_bytes v h1 h2])

/-- Claim C3 witness: the round-trips at the scenario value -16384, at
timeout 2000 and at the nonnegative torque 4914. -/
theorem C3_roundtrip_littleendian_witness :
    Part002.interpretBamocarMessage (Part002.sendTorqueCommand (-16384)) =
      Reading.setTorque (-16384) ∧
    Part002.interpretBamocarMessage (Part002.configureCanTimeout 2000) =
      Reading.setCanTimeout 2000 ∧
    Teensy.interpretBamocarMessage (Teensy.sendTorqueCommand 4914) =
      Reading.setTorque 4914 :=
  ⟨C3_roundtrip_littleendian.1 (-16384) (by decide) (by decide),
   C3_roundtrip_littleendian.2.1 2000 (by decide),
   C3_roundtrip_littleendian.2.2.1 4914 (by decide) (by decide)⟩

/-- Claim C4 (counterexample): decoding a payload-length-1 frame with
register 0x90 does not yield a malformed-frame error — no such error path
exists in the code.  The decoder reads the residual buffer bytes beyond
the declared length and returns a torque reading (0 for a zeroed
buffer). -/
theorem C4_counterexample :
    Part002.interpretBamocarMessage
      { id := BAMOCAR_RX_ID, extended := false, len := 1,
        buf := [0x90, 0, 0, 0, 0, 0, 0, 0] } =
      Reading.setTorque 0 := by
  decide

/-- Claim C4 (amended): the decoder has no malformed-frame branch — its
result is independent of the declared payload length, reading payload
bytes 1 and 2 from the 8-byte buffer even when length < 3; the only
length guard is in the receive path (readCanMessages), whose STATUS
detection ignores frames with payload length < 3 instead of reporting an
error. -/
theorem C4_no_malformed_branch :
    (∀ (f : Frame) (n : Nat),
      Part002.interpretBamocarMessage { f with len := n } =
        Part002.interpretBamocarMessage f) ∧
    (∀ f : Frame, f.len < 3 → Teensy.statusDetect f = false) := by
  constructor
  · intro f n
    rfl
  · intro f h
    have hd : decide (3 ≤ f.len) = false := decide_eq_false (by omega)
    simp [Teensy.statusDetect, hd]

/-- Claim C4 witness: length independence at a concrete truncated torque
frame, and a length-1 STATUS frame that the receive guard ignores. -/
theorem C4_no_malformed_branch_witness :
    Part002.interpretBamocarMessage
      { id := BAMOCAR_RX_ID, extended := false, len := 1,
        buf := [0x90, 0x32, 0x13, 0, 0, 0, 0, 0] } =
      Part002.interpretBamocarMessage
        { id := BAMOCAR_RX_ID, extended := false, len := 3,
          buf := [0x90, 0x32, 0x13, 0, 0, 0, 0, 0] } ∧
    Teensy.statusDetect
      { id := BAMOCAR_TX_ID, extended := false, len := 1,
        buf := [0x40, 0, 0, 0, 0, 0, 0, 0] } = false :=
  ⟨C4_no_malformed_branch.1
      { id := BAMOCAR_RX_ID, extended := false, len := 3,
        buf := [0x90, 0x32, 0x13, 0, 0, 0, 0, 0] } 1,
   C4_no_malformed_branch.2
      { id := BAMOCAR_TX_ID, extended := false, len := 1,
        buf := [0x40, 0, 0, 0, 0, 0, 0, 0] } (by decide)⟩

/-- Claim C8 (counterexample): the DC bus voltage register 0xEB is decoded
through uint16_t, not int16_t: bytes [0xEB, 0x00, 0x80] yield 32768 * 0.1
= 3276.8 volts, whereas scaling the signed 16-bit value (-32768) would
yield -3276.8; so VOLTAGE readings do not scale the raw signed value. -/
theorem C8_counterexample :
    Part002.interpretBamocarMessage
      { id := BAMOCAR_TX_ID, extended := false, len := 3,
        buf := [0xEB, 0x00, 0x80, 0, 0, 0, 0, 0] } =
      Reading.dcBusVoltage ((32768 : ℚ) / 10) ∧
    asInt16 0x00 0x80 = -32768 ∧
    ((32768 : ℚ) / 10) ≠ ((asInt16 0x00 0x80 : ℚ) / 10) := by
  refine ⟨?_, by decide, ?_⟩
  · rw [interp002_txEB]
    norm_num [asUInt16]
  · rw [(by decide : asInt16 0x00 0x80 = -32768)]
    norm_num

/-- Claim C8 (amended): CURRENT (register 0x5F) readings scale the raw
signed 16-bit payload by 0.1, while VOLTAGE (register 0xEB) readings scale
the raw unsigned 16-bit payload by 0.1; decoding the frame with id 0x181
and bytes [0xEB, 0x64, 0x00] yields DCBusVoltage(10.0). -/
theorem C8_voltage_current_scaling :
    (∀ lo hi : Nat,
      Part002.interpretBamocarMessage
        { id := BAMOCAR_TX_ID, extended := false, len := 3,
          buf := [0xEB, lo, hi, 0, 0, 0, 0, 0] } =
        Reading.dcBusVoltage ((asUInt16 lo hi : ℚ) / 10)) ∧
    (∀ lo hi : Nat,
      Part002.interpretBamocarMessage
        { id := BAMOCAR_TX_ID, extended := false, len := 3,
          buf := [0x5F, lo, hi, 0, 0, 0, 0, 0] } =
        Reading.actualCurrent ((asInt16 lo hi : ℚ) / 10)) ∧
    Part002.interpretBamocarMessage
      { id := 0x181, extended := false, len := 3,
        buf := [0xEB, 0x64, 0x00, 0, 0, 0, 0, 0] } =
      Reading.dcBusVoltage 10 := by
  refine ⟨interp002_txEB, interp002_tx5F, ?_⟩
  have h := interp002_txEB 0x64 0x00
  rw [(by rfl : (0x181 : Nat) = BAMOCAR_TX_ID)]
  rw [h]
  norm_num [asUInt16]

theorem awaitOnlineGo_timeout (inbound : Nat → List Frame)
    (h : ∀ j, (inbound j).any Teensy.statusDetect = false) :
    ∀ fuel i, 100 ≤ i + fuel → i ≤ 100 →
      Teensy.awaitOnlineGo inbound 100 10000 i fuel = (false, 100) := by
  intro fuel
  induction fuel with
  | zero =>
    intro i h1 h2
    have hi : i = 100 := by omega
    subst hi
    rfl
  | succ n ih =>
    intro i h1 h2
    by_cases hi : i = 100
    · subst hi
      simp only [Teensy.awaitOnlineGo]
      rw [if_neg (by omega)]
    · have hi' : i < 100 := by omega
      simp only [Teensy.awaitOnlineGo]
      rw [if_pos (by omega), h i]
      simp only [Bool.false_eq_true, if_false]
      exact ih (i + 1) (by omega) (by omega)

theorem awaitOnlineGo_success (inbound : Nat → List Frame) (j : Nat)
    (hj : j < 100) (hhit : (inbound j).any Teensy.statusDetect = true)
    (hmin : ∀ k, k < j → (inbound k).any Teensy.statusDetect = false) :
    ∀ fuel i, i ≤ j → j + 1 ≤ i + fuel →
      Teensy.awaitOnlineGo inbound 100 10000 i fuel = (true, j + 1) := by
  intro fuel
  induction fuel with
  | zero =>
    intro i h1 h2
    omega
  | succ n ih =>
    intro i h1 h2
    simp only [Teensy.awaitOnlineGo]
    rw [if_pos (by omega)]
    by_cases hij : i = j
    · subst hij
      rw [hhit]
      simp
    · rw [hmin i (by omega)]
      simp only [Bool.false_eq_true, if_false]
      exact ih (i + 1) (by omega) (by omega)

/-- Claim C7: with maxWaitMs = 10000 and pollIntervalMs = 100 (each loop
iteration taking one poll interval), if no STATUS reply ever arrives the
online wait terminates with result false after issuing exactly 100 STATUS
probes; if a STATUS reply is decoded at some poll before the timeout, it
returns true (after one probe per iteration up to and including that
poll). -/
theorem C7_awaitOnline :
    ∀ inbound : Nat → List Frame,
      ((∀ j, (inbound j).any Teensy.statusDetect = false) →
        Teensy.awaitOnline 10000 100 inbound = (false, 100)) ∧
      (∀ j, j < 100 → (inbound j).any Teensy.statusDetect = true →
        (∀ k, k < j → (inbound k).any Teensy.statusDetect = false) →
        Teensy.awaitOnline 10000 100 inbound = (true, j + 1)) := by
  intro inbound
  constructor
  · intro h
    exact awaitOnlineGo_timeout inbound h 10000 0 (by omega) (by omega)
  · intro j hj hhit hmin
    exact awaitOnlineGo_success inbound j hj hhit hmin 10000 0 (by omega) (by omega)

/-- Claim C7 witness: with no inbound traffic at all the wait returns false
after exactly 100 probes; with a STATUS frame in the first poll it returns
true after one probe. -/
theorem C7_awaitOnline_witness :
    Teensy.awaitOnline 10000 100 (fun _ => []) = (false, 100) ∧
    Teensy.awaitOnline 10000 100
      (fun _ => [{ id := BAMOCAR_TX_ID, extended := false, len := 3,
                   buf := [0x40, 0, 0, 0, 0, 0, 0, 0] }]) = (true, 1) :=
  ⟨(C7_awaitOnline (fun _ => [])).1 (fun _ => rfl),
   (C7_awaitOnline _).2 0 (by decide) (by decide)
     (fun k hk => absurd hk (Nat.not_lt_zero k))⟩

end CANTesting
